import Mathlib

/-!
Verification development for the virtual-sensor project: a shallow embedding
of the key-value codec, the metadata parsers, the sensor model and the
sensor manager, translated from the C++ sources, with theorems about the
behaviour of those operations.  C++ strings are embedded as `List Char`;
in-place mutation is embedded as explicit state passing; a C++ exception
escaping a function is embedded as an error value carried beside (or instead
of) the result.
-/

/-- The error-code enumeration (src/libs/error_codes.hpp), extended with the
two extra names (`NOT_FOUND`, `INVALID_VALUE`) that the second revision of the
exception hierarchy (src/unnamed/part_005) refers to. -/
inductive ErrorCode where
  | VALUE_ERROR
  | VALUE_NOT_FOUND
  | WARNING_CODE
  | ERROR_CODE
  | CRTICAL_ERROR_CODE
  | NOT_DEFINED_ERROR
  | NOT_FOUND
  | INVALID_VALUE
deriving DecidableEq

/-- The project's chained `Exception` class (src/unnamed/part_000 and
src/unnamed/part_005): an error code, a message, a source, and an optional
inner exception.  `base` embeds an exception whose `innerException` is null,
`chain` one whose `innerException` is set. -/
inductive Exceptio where
  | base (Code : ErrorCode) (Message Source : List Char)
  | chain (Code : ErrorCode) (Message Source : List Char) (inner : Exceptio)
deriving DecidableEq

/-- The `Code` field of an exception object. -/
def Exceptio.Code : Exceptio → ErrorCode
  | .base c _ _ => c
  | .chain c _ _ _ => c

/-- A C++ exception escaping an embedded operation:  either an object of the
project's `Exception` hierarchy (which `catch (const Exception&)` handlers
catch), or a `std::out_of_range` raised by `std::string::substr` (which those
handlers do not catch). -/
inductive CppError where
  | cpp (e : Exceptio)
  | stdOutOfRange
deriving DecidableEq

deriving instance DecidableEq for Except

/-- First index at which `pat` occurs as a contiguous substring of `s`
(`std::string::find(pat)`); `none` embeds `npos`.  As in C++, the empty
pattern is found at index 0. -/
def findSub (s pat : List Char) : Option Nat :=
  if pat.isPrefixOf s then some 0
  else
    match s with
    | [] => none
    | _ :: rest => (findSub rest pat).map (· + 1)

/-- First index of character `c` in `s`, or `none`. -/
def findCharIdx (c : Char) : List Char → Option Nat
  | [] => none
  | a :: rest => if a = c then some 0 else (findCharIdx c rest).map (· + 1)

/-- `std::string::find(c, pos)`: first index `≥ pos` holding `c`, as an index
into the whole string; `none` embeds `npos`. -/
def findCharFrom (s : List Char) (c : Char) (pos : Nat) : Option Nat :=
  (findCharIdx c (s.drop pos)).map (pos + ·)

/-- Embeds `getValueFromKeyValueLikeString` (src/libs/helpers.cpp lines 8-18,
identical in src/unnamed/part_001 and src/unnamed/part_004):  find the first
occurrence of `key`, skip `key.length() + 1` characters, and take up to the
next `separator` or the end.  When the skip lands strictly past the end of
the string, `str.substr(pos, ...)` raises `std::out_of_range`; the function
returns the empty string when `key` does not occur at all. -/
def getValueFromKeyValueLikeString (str key : List Char) (separator : Char) :
    Except CppError (List Char) :=
  match findSub str key with
  | none => .ok []
  | some p =>
    let pos := p + key.length + 1
    if pos ≤ str.length then
      match findCharFrom str separator pos with
      | none => .ok (str.drop pos)
      | some e => .ok ((str.drop pos).take (e - pos))
    else .error .stdOutOfRange

/-- Embeds `splitString` (src/libs/helpers.cpp lines 20-31): split on every
occurrence of the separator, keeping empty segments, including a trailing
one. -/
def splitString : List Char → Char → List (List Char)
  | [], _ => [[]]
  | c :: rest, sep =>
    if c = sep then [] :: splitString rest sep
    else
      match splitString rest sep with
      | [] => [[c]]
      | h :: t => (c :: h) :: t

/-- `::tolower` of the C locale on one character: lower-cases ASCII capitals,
leaves everything else alone. -/
def cppToLower (c : Char) : Char :=
  if 'A' ≤ c ∧ c ≤ 'Z' then Char.ofNat (c.toNat + 32) else c

/-- `std::transform(..., ::tolower)` over a whole string. -/
def lowerStr (s : List Char) : List Char := s.map cppToLower

/-- The sensor status enumeration (second revision, src/libraries/sensors.hpp
lines 747-751). -/
inductive SensorStatus where
  | OK
  | ERROR
  | OFFLINE
deriving DecidableEq

/-- The parameter data-type enumeration (src/libraries/sensors.hpp). -/
inductive DataType where
  | INT
  | DOUBLE
  | FLOAT
  | STRING
deriving DecidableEq

/-- A sensor parameter (struct `SensorParam`): value, unit and data type. -/
structure SensorParam where
  Value : List Char
  Unit : List Char
  DType : DataType
deriving DecidableEq

/-- The metadata record of the response parser (src/libraries/parser.hpp):
uid, status and remaining payload. -/
structure SensorMetadata where
  UID : List Char
  Status : List Char
  Data : List Char
deriving DecidableEq

/-- The metadata record of the request parser (src/unnamed/part_002 lines
213-218): uid, type and remaining payload. -/
structure SensorMetadataV1 where
  UID : List Char
  TypeName : List Char
  Data : List Char
deriving DecidableEq

/-- The second-revision sensor (class `BaseSensor`, src/libraries/sensors.hpp
lines 807-1235): identity, status, error, the two parameter tables and the
three flags.  `std::map` / `std::unordered_map` are embedded as association
lists in iteration order. -/
structure BaseSensor where
  UID : List Char
  Status : SensorStatus
  TypeName : List Char
  Description : List Char
  Error : Option Exceptio
  Values : List (List Char × SensorParam)
  Configs : List (List Char × SensorParam)
  redrawPenging : Bool
  isConfigsSync : Bool
  isValuesSync : Bool
deriving DecidableEq

/-- The first-revision sensor (class `BaseSensor`, src/libraries/sensors.hpp
lines 79-450, the 2024 family also used by src/unnamed/part_002): the same
data with a single `isSync` flag. -/
structure BaseSensorV1 where
  UID : List Char
  Status : SensorStatus
  TypeName : List Char
  Description : List Char
  Error : Option Exceptio
  Values : List (List Char × SensorParam)
  Configs : List (List Char × SensorParam)
  redrawPenging : Bool
  isSync : Bool
deriving DecidableEq

/-- The shared parameter-application loop of `BaseSensor::config` and
`BaseSensor::update` (both revisions; e.g. src/libraries/sensors.hpp lines
385-394 and 1176-1186): for each parameter in iteration order, extract its
key's value from the input string and overwrite the parameter when the
extracted value is non-empty.  Returns the table after the loop, the final
content of the local variable `value`, and whether an extraction raised
`std::out_of_range` (aborting the loop there, as a C++ throw would). -/
def applyLoop (upd : List Char) :
    List (List Char × SensorParam) → List Char →
    List (List Char × SensorParam) × List Char × Bool
  | [], value => ([], value, false)
  | (k, p) :: rest, value =>
    match getValueFromKeyValueLikeString upd k '&' with
    | .error _ => ((k, p) :: rest, value, true)
    | .ok v =>
      let p' := if v = [] then p else { p with Value := v }
      let (rest', value', threw) := applyLoop upd rest v
      ((k, p') :: rest', value', threw)

/-- The exception `BaseSensor::update` (first revision, line 397) throws when
the loop ends with an empty `value`; in the 2024 exception family a
`ValueNotFoundException` defaults to code `WARNING_CODE`
(src/unnamed/part_000). -/
def excUpdateVNF : Exceptio :=
  .base .WARNING_CODE ( "No value found in update string!").data
    ( "BaseSensor::update").data

/-- The exception `BaseSensor::config` (first revision, line 354) throws when
the loop ends with an empty `value` (a `ConfigurationNotFoundException`, code
`WARNING_CODE` in the 2024 family). -/
def excConfigCNF : Exceptio :=
  .base .WARNING_CODE ( "No configuration found in config string!").data
    ( "BaseSensor::config").data

/-- `BaseSensor::update` of the first revision (src/libraries/sensors.hpp
lines 385-401) at the level of the `Values` table: run the loop, then throw
`ValueNotFoundException` when the loop's final `value` is empty.  The first
component is the table as left by the loop (the C++ method mutates it in
place before any throw). -/
def updateValues (vals : List (List Char × SensorParam)) (upd : List Char) :
    List (List Char × SensorParam) × Option CppError :=
  let (t, value, threw) := applyLoop upd vals []
  if threw then (t, some .stdOutOfRange)
  else if value = [] then (t, some (.cpp excUpdateVNF))
  else (t, none)

/-- `BaseSensor::config` of the first revision (src/libraries/sensors.hpp
lines 343-359) at the level of the `Configs` table. -/
def configValues (cfgs : List (List Char × SensorParam)) (cfg : List Char) :
    List (List Char × SensorParam) × Option CppError :=
  let (t, value, threw) := applyLoop cfg cfgs []
  if threw then (t, some .stdOutOfRange)
  else if value = [] then (t, some (.cpp excConfigCNF))
  else (t, none)

/-- `BaseSensor::update` of the second revision (src/libraries/sensors.hpp
lines 1176-1186): the same loop with no check afterwards — the only way it
can fail is an extraction raising `std::out_of_range`. -/
def updateValuesV2 (vals : List (List Char × SensorParam)) (upd : List Char) :
    List (List Char × SensorParam) × Option CppError :=
  let (t, _, threw) := applyLoop upd vals []
  (t, if threw then some .stdOutOfRange else none)

/-- `BaseSensor::config` of the second revision (src/libraries/sensors.hpp
lines 1138-1148): also just the loop. -/
def configValuesV2 (cfgs : List (List Char × SensorParam)) (cfg : List Char) :
    List (List Char × SensorParam) × Option CppError :=
  let (t, _, threw) := applyLoop cfg cfgs []
  (t, if threw then some .stdOutOfRange else none)

/-- `BaseSensor::update` of the second revision as a sensor operation. -/
def BaseSensor.update (s : BaseSensor) (upd : List Char) :
    BaseSensor × Option CppError :=
  let (t, err) := updateValuesV2 s.Values upd
  ({ s with Values := t }, err)

/-- `BaseSensor::update` of the first revision as a sensor operation:
on success it also sets `redrawPenging` (line 400). -/
def BaseSensorV1.update (s : BaseSensorV1) (upd : List Char) :
    BaseSensorV1 × Option CppError :=
  let (t, err) := updateValues s.Values upd
  match err with
  | some e => ({ s with Values := t }, some e)
  | none => ({ s with Values := t, redrawPenging := true }, none)

/-- `BaseSensor::setStatus` (src/libraries/sensors.hpp lines 906-925): decode
a status string, ignoring the empty string and anything but "1", "-1", "0". -/
def BaseSensor.setStatus (s : BaseSensor) (status : List Char) : BaseSensor :=
  if status = [] then s
  else if status = ( "1").data then { s with Status := .OK }
  else if status = ( "-1").data then { s with Status := .ERROR }
  else if status = ( "0").data then { s with Status := .OFFLINE }
  else s

/-- `BaseSensor::setError` (src/libraries/sensors.hpp lines 1054-1067,
identical in the first revision at lines 274-287): when a prior error is
present, delete it and reset the status to `OK`; install the new error; when
the new error is present with a code other than `WARNING_CODE`, set the
status to `ERROR`. -/
def BaseSensor.setError (s : BaseSensor) (error : Option Exceptio) : BaseSensor :=
  let s1 := if s.Error.isSome then { s with Error := none, Status := .OK } else s
  let s2 := { s1 with Error := error }
  match error with
  | some e => if e.Code ≠ .WARNING_CODE then { s2 with Status := .ERROR } else s2
  | none => s2

/-- `BaseSensor::setError` of the first-revision sensor (same body). -/
def BaseSensorV1.setError (s : BaseSensorV1) (error : Option Exceptio) :
    BaseSensorV1 :=
  let s1 := if s.Error.isSome then { s with Error := none, Status := .OK } else s
  let s2 := { s1 with Error := error }
  match error with
  | some e => if e.Code ≠ .WARNING_CODE then { s2 with Status := .ERROR } else s2
  | none => s2

/-- The key-value encoding loop shared by `BaseSensor::synchronize` (first
revision, lines 325-328) and `BaseSensor::syncConfigs` (second revision,
src/libraries/sensors.hpp lines 816-824): starting from a prefix, append
`"&" + key + "=" + value` for every parameter in table order. -/
def encodeParams (start : List Char) :
    List (List Char × SensorParam) → List Char
  | [] => start
  | (k, p) :: rest => encodeParams (start ++ '&' :: (k ++ '=' :: p.Value)) rest

/-- The key of the uid field on the wire. -/
def keyId : List Char := ( "id").data

/-- The key of the status field on the wire. -/
def keyStatus : List Char := ( "status").data

/-- The key of the type field on the wire. -/
def keyType : List Char := ( "type").data

/-- The exceptions the strict request parser throws
(src/libraries/sensors.cpp lines 131-169; `ParseMetadataException` defaults
to `CRTICAL_ERROR_CODE` in src/unnamed/part_005). -/
def excParseBadFormat : Exceptio :=
  .base .CRTICAL_ERROR_CODE ( "Invalid request format!").data ( "ParseMetadata").data

/-- Thrown by the strict parser when no uid is found. -/
def excParseNoId : Exceptio :=
  .base .CRTICAL_ERROR_CODE ( "ID not found in request!").data ( "ParseMetadata").data

/-- Thrown by the strict parser when no type is found. -/
def excParseNoType : Exceptio :=
  .base .CRTICAL_ERROR_CODE ( "Type not found in request!").data ( "ParseMetadata").data

/-- The strict request parser, `ParseMetadata(std::string &request)`
(src/libraries/sensors.cpp lines 131-169): requires the leading '?', erases
it from the caller's string, extracts non-empty `id` and `type`, and stores
the whole remainder as `Data`.  The first component is the caller's string
after the call (the parameter is passed by reference and mutated in place);
the second the returned record or the escaping exception. -/
def ParseMetadataReq (request : List Char) :
    List Char × Except CppError SensorMetadataV1 :=
  if request.head? = some '?' then
    let r := request.drop 1
    match getValueFromKeyValueLikeString r keyId '&' with
    | .error e => (r, .error e)
    | .ok uid =>
      if uid = [] then (r, .error (.cpp excParseNoId))
      else
        match getValueFromKeyValueLikeString r keyType '&' with
        | .error e => (r, .error e)
        | .ok ty =>
          if ty = [] then (r, .error (.cpp excParseNoType))
          else (r, .ok { UID := uid, TypeName := ty, Data := r })
  else (request, .error (.cpp excParseBadFormat))

/-- The lenient response parser, `ParseMetadata(std::string &response)`
(src/libraries/sensors.cpp lines 213-249): without the leading '?' it
returns an all-empty record and leaves the string alone; otherwise it erases
the marker, lower-cases the whole remainder in place, extracts `id` and
`status` (leaving a field empty when absent) and stores the remainder as
`Data`.  The first component is the caller's string after the call. -/
def ParseMetadataResp (response : List Char) :
    List Char × Except CppError SensorMetadata :=
  if response.head? = some '?' then
    let low := lowerStr (response.drop 1)
    match getValueFromKeyValueLikeString low keyId '&' with
    | .error e => (low, .error e)
    | .ok uid =>
      match getValueFromKeyValueLikeString low keyStatus '&' with
      | .error e => (low, .error e)
      | .ok status => (low, .ok { UID := uid, Status := status, Data := low })
  else (response, .ok { UID := [], Status := [], Data := [] })

/-- `CheckMetadata` of the response parser (src/libraries/sensors.cpp lines
198-206): uid and payload non-empty. -/
def CheckMetadata (md : SensorMetadata) : Bool :=
  !md.UID.isEmpty && !md.Data.isEmpty

/-- `IsValid` (src/libraries/sensors.cpp lines 208-211): valid metadata whose
uid equals the expected one. -/
def IsValid (md : SensorMetadata) (uid : List Char) : Bool :=
  CheckMetadata md && md.UID = uid

/-- `CheckMetadata` of the strict request parser (src/libraries/sensors.cpp
lines 126-129): uid, type and payload non-empty. -/
def CheckMetadataV1 (md : SensorMetadataV1) : Bool :=
  !md.UID.isEmpty && !md.TypeName.isEmpty && !md.Data.isEmpty

/-- An `ADC` sensor as `ADC::init` of the second revision seeds it
(src/libraries/sensors.hpp lines 1274-1291), together with the `BaseSensor`
constructor (lines 882-889). -/
def ADCinit (uid : List Char) : BaseSensor :=
  { UID := uid
    Status := .OK
    TypeName := ( "ADC").data
    Description := ( "Analog to Digital Converter").data
    Error := none
    Values := [(( "value").data, { Value := ( "0").data, Unit := [], DType := .INT })]
    Configs := [(( "resolution").data,
      { Value := ( "12").data, Unit := ( "bits").data, DType := .INT })]
    redrawPenging := true
    isConfigsSync := false
    isValuesSync := false }

/-- A `TH` sensor as `TH::init` of the second revision seeds it
(src/libraries/sensors.hpp lines 1361-1379). -/
def THinit (uid : List Char) : BaseSensor :=
  { UID := uid
    Status := .OK
    TypeName := ( "TH").data
    Description := ( "Temperature & Humidity Sensor").data
    Error := none
    Values := [(( "temperature").data,
      { Value := ( "0").data, Unit := ( "Celsia").data, DType := .FLOAT }),
      (( "humidity").data,
      { Value := ( "0").data, Unit := ( "%").data, DType := .INT })]
    Configs := [(( "precision").data,
      { Value := ( "2").data, Unit := ( "decimals").data, DType := .INT })]
    redrawPenging := true
    isConfigsSync := false
    isValuesSync := false }

/-- `createSensorByType` (src/libraries/sensor_factory.cpp lines 50-66):
`nullptr` for an unknown type name is embedded as `none`. -/
def createSensorByType (ty uid : List Char) : Option BaseSensor :=
  if ty = ( "ADC").data then some (ADCinit uid)
  else if ty = ( "TH").data then some (THinit uid)
  else none

/-- The fixed built-in sensor list, `createSensorList(memory)`
(src/libraries/sensor_factory.cpp lines 13-20). -/
def createSensorListFixed : List BaseSensor :=
  [ADCinit ( "0").data, ADCinit ( "1").data, THinit ( "2").data]

/-- The id half of a discovery segment: `sensorStr.substr(0, find(':'))`.
With no ':' present, `find` is `npos` and `substr(0, npos)` is the whole
segment. -/
def segmentId (seg : List Char) : List Char :=
  match findCharIdx ':' seg with
  | some j => seg.take j
  | none => seg

/-- The type half of a discovery segment: `sensorStr.substr(find(':') + 1)`.
With no ':' present, `npos + 1` wraps around to 0, so the whole segment is
taken. -/
def segmentType (seg : List Char) : List Char :=
  match findCharIdx ':' seg with
  | some j => seg.drop (j + 1)
  | none => seg

/-- The segment loop of `createSensorList(memory, stringSource)`
(src/libraries/sensor_factory.cpp lines 32-47): empty segments are skipped,
a segment of unknown type yields `nullptr` and is skipped, every other
segment appends the created sensor. -/
def createSensorListGo : List (List Char) → List BaseSensor
  | [] => []
  | seg :: rest =>
    if seg = [] then createSensorListGo rest
    else
      match createSensorByType (segmentType seg) (segmentId seg) with
      | none => createSensorListGo rest
      | some s => s :: createSensorListGo rest

/-- `createSensorList(memory, stringSource)` (src/libraries/sensor_factory.cpp
lines 22-48): split the source on '&' and run the segment loop. -/
def createSensorListFrom (stringSource : List Char) : List BaseSensor :=
  createSensorListGo (splitString stringSource '&')

/-- `SensorManager::init(bool fromRequest)` with `fromRequest = true`
(src/unnamed/part_008 lines 44-71), as a function of the received discovery
response: a response not starting with '?' falls back to the fixed list;
otherwise the marker is stripped and the collection built from the
response. -/
def SensorManager_init (response : List Char) : List BaseSensor :=
  if response.head? = some '?' then createSensorListFrom (response.drop 1)
  else createSensorListFixed

/-- `SensorManager::getSensor` (src/unnamed/part_002 lines 92-102): first
sensor with the given uid, by linear scan. -/
def getSensor : List BaseSensorV1 → List Char → Option BaseSensorV1
  | [], _ => none
  | s :: rest, uid => if s.UID = uid then some s else getSensor rest uid

/-- `updateSensor` (src/unnamed/part_004 lines 88-95): call the sensor's
`update`, catching an `Exception` and recording it via `setError`; a
`std::out_of_range` is not caught and escapes. -/
def updateSensorWrap (s : BaseSensorV1) (upd : List Char) :
    BaseSensorV1 × Option CppError :=
  match BaseSensorV1.update s upd with
  | (s', some (.cpp e)) => (BaseSensorV1.setError s' (some e), none)
  | (s', some .stdOutOfRange) => (s', some .stdOutOfRange)
  | (s', none) => (s', none)

/-- Applying `updateSensor` through the pointer `getSensor` returned: the
first sensor in the collection with the given uid is updated in place. -/
def updateFirstMatch : List BaseSensorV1 → List Char → List Char →
    List BaseSensorV1 × Option CppError
  | [], _, _ => ([], none)
  | s :: rest, uid, upd =>
    if s.UID = uid then
      let (s', err) := updateSensorWrap s upd
      (s' :: rest, err)
    else
      let (rest', err) := updateFirstMatch rest uid upd
      (s :: rest', err)

/-- `SensorManager::manage` (src/unnamed/part_002 lines 114-151): an empty
request returns at once; a parse failure of the project `Exception` kind is
caught, printed and swallowed (a `std::out_of_range` escapes); invalid
metadata or an unknown uid logs and returns; otherwise the payload is
forwarded to the matched sensor's `update` through `updateSensor`. -/
def manage (sensors : List BaseSensorV1) (request : List Char) :
    List BaseSensorV1 × Option CppError :=
  if request = [] then (sensors, none)
  else
    match (ParseMetadataReq request).2 with
    | .error (.cpp _) => (sensors, none)
    | .error .stdOutOfRange => (sensors, some .stdOutOfRange)
    | .ok md =>
      if CheckMetadataV1 md then
        match getSensor sensors md.UID with
        | none => (sensors, none)
        | some _ => updateFirstMatch sensors md.UID md.Data
      else (sensors, none)

/-- The transport collaborator (src/libs/messenger.hpp): the outcome of the
n-th `sendMessage` call (`none` = delivered, `some e` = the `Exception` the
interface declares it may throw) and the text the n-th `receiveMessage` call
returns (the empty string on a timeout). -/
structure Env where
  send : Nat → Option Exceptio
  recv : Nat → List Char

/-- How many transport calls have been made so far. -/
structure Chan where
  sends : Nat
  recvs : Nat
deriving DecidableEq

/-- `BaseSensor::syncConfigs` (src/libraries/sensors.hpp lines 816-824):
encode the config table behind a `"?CONFIG&id=" + UID` header, send it, and
mark the configs synchronized.  A send failure escapes before the flag is
set. -/
def syncConfigs (env : Env) (s : BaseSensor) (ch : Chan) :
    BaseSensor × Chan × Option CppError :=
  let _request := encodeParams (( "?CONFIG&id=").data ++ s.UID) s.Configs
  match env.send ch.sends with
  | some e => (s, { ch with sends := ch.sends + 1 }, some (.cpp e))
  | none => ({ s with isConfigsSync := true }, { ch with sends := ch.sends + 1 }, none)

/-- `BaseSensor::syncValues` (src/libraries/sensors.hpp lines 826-847): clear
the values-sync flag, send the pull request, receive and parse the response
leniently, and only when `IsValid` accepts it apply the payload via `update`,
decode the status and set the redraw and sync flags.  Failures escape with
the sensor as mutated so far. -/
def syncValues (env : Env) (s0 : BaseSensor) (ch : Chan) :
    BaseSensor × Chan × Option CppError :=
  let s := { s0 with isValuesSync := false }
  match env.send ch.sends with
  | some e => (s, { ch with sends := ch.sends + 1 }, some (.cpp e))
  | none =>
    let ch1 : Chan := { ch with sends := ch.sends + 1 }
    let response := env.recv ch1.recvs
    let ch2 : Chan := { ch1 with recvs := ch1.recvs + 1 }
    match (ParseMetadataResp response).2 with
    | .error e => (s, ch2, some e)
    | .ok md =>
      if IsValid md s.UID then
        match BaseSensor.update s md.Data with
        | (s1, some e) => (s1, ch2, some e)
        | (s1, none) =>
          let s2 := BaseSensor.setStatus s1 md.Status
          ({ s2 with redrawPenging := true, isValuesSync := true }, ch2, none)
      else (s, ch2, none)

/-- `BaseSensor::synchronize` (src/libraries/sensors.hpp lines 1086-1111):
push the configs when they are out of sync, then pull the values when they
are; an escaping failure stops the sequence there. -/
def synchronize (env : Env) (s : BaseSensor) (ch : Chan) :
    BaseSensor × Chan × Option CppError :=
  match (if s.isConfigsSync then (s, ch, none) else syncConfigs env s ch) with
  | (s1, ch1, some e) => (s1, ch1, some e)
  | (s1, ch1, none) =>
    if s1.isValuesSync then (s1, ch1, none) else syncValues env s1 ch1

/-- `syncSensor` (src/libraries/sensors.cpp lines 65-76): call the sensor's
`synchronize`, catching an `Exception` and recording it via `setError`;
anything else (`std::out_of_range`) is not caught and escapes. -/
def syncSensor (env : Env) (s : BaseSensor) (ch : Chan) :
    BaseSensor × Chan × Option CppError :=
  match synchronize env s ch with
  | (s', ch', some (.cpp e)) => (BaseSensor.setError s' (some e), ch', none)
  | (s', ch', some .stdOutOfRange) => (s', ch', some .stdOutOfRange)
  | (s', ch', none) => (s', ch', none)

/-- `SensorManager::resync` (src/unnamed/part_007 lines 153-159): call
`syncSensor` on every sensor in collection order.  An error `syncSensor`
lets escape aborts the loop; the sensors not yet reached are returned
untouched. -/
def resyncGo (env : Env) (ch : Chan) :
    List BaseSensor → List BaseSensor × Chan × Option CppError
  | [] => ([], ch, none)
  | s :: rest =>
    match syncSensor env s ch with
    | (s', ch', none) =>
      let (rest', chEnd, err) := resyncGo env ch' rest
      (s' :: rest', chEnd, err)
    | (s', ch', some e) => (s' :: rest, ch', some e)

/-! ## Theorems -/

/-- C9: the codec extract operation is not total: it returns
`std::out_of_range` exactly when the key occurs and its first occurrence
position plus the key's length plus one exceeds the source string's length;
on every other input it returns a string. -/
theorem C9_extract_partiality :
    ∀ (str key : List Char) (sep : Char),
      (getValueFromKeyValueLikeString str key sep = .error .stdOutOfRange ↔
        ∃ p, findSub str key = some p ∧ str.length < p + key.length + 1) ∧
      (getValueFromKeyValueLikeString key key sep = .error .stdOutOfRange) := by
  intro str key sep
  constructor
  · unfold getValueFromKeyValueLikeString
    cases h : findSub str key with
    | none => simp
    | some p =>
      by_cases hle : p + key.length + 1 ≤ str.length
      · simp only [hle, if_pos]
        cases hf : findCharFrom str sep (p + key.length + 1) <;> simp <;> omega
      · simp only [hle, if_neg, if_false]
        simp
        omega
  · unfold getValueFromKeyValueLikeString
    have h : findSub key key = some 0 := by
      unfold findSub
      have : key.isPrefixOf key = true := by
        induction key with
        | nil => rfl
        | cons a rest ih => simp [List.isPrefixOf, ih]
      simp [this]
    rw [h]
    simp

/-- A helper sensor for concrete statements: an ADC whose status was driven
to `OFFLINE` (as `setStatus "0"` does) while no error is recorded. -/
def sensorOffline : BaseSensor := { ADCinit ( "7").data with Status := .OFFLINE }

/-- C3 counterexample: on a sensor whose status is `OFFLINE` and whose error
is null, `setError(nullptr)` leaves the status `OFFLINE`, not `Ok` as the
claim requires for a null error regardless of prior state. -/
theorem C3_setError_counterexample :
    sensorOffline.Error = none ∧
    (BaseSensor.setError sensorOffline none).Status = .OFFLINE ∧
    SensorStatus.OFFLINE ≠ SensorStatus.OK := by decide

/-- C3 (amended): after `setError err` the status is `ERROR` whenever `err`
is non-null with a code other than `WARNING_CODE`; otherwise (a null or
warning-severity `err`) the status becomes `OK` only when a prior error was
installed, and is left unchanged when there was none.  The error field always
becomes `err`. -/
theorem C3_setError_status :
    ∀ (s : BaseSensor) (err : Option Exceptio),
      (BaseSensor.setError s err).Error = err ∧
      (BaseSensor.setError s err).Status =
        (match err with
         | some e =>
           if e.Code ≠ .WARNING_CODE then .ERROR
           else if s.Error.isSome then .OK else s.Status
         | none => if s.Error.isSome then .OK else s.Status) := by
  intro s err
  cases err with
  | none =>
    cases hE : s.Error <;> simp [BaseSensor.setError, hE]
  | some e =>
    cases hE : s.Error <;>
      by_cases hc : e.Code = .WARNING_CODE <;>
      simp [BaseSensor.setError, hE, hc]

/-- C5 counterexample: the discovery response `"?"` carries the protocol
marker, so no fallback happens, the stripped remainder splits into one empty
segment, and the manager is left with an empty collection — the claim that
the collection is non-empty after every possible discovery response is
false. -/
theorem C5_init_counterexample :
    SensorManager_init (( "?").data) = [] ∧
    (( "?").data).head? = some '?' := by decide

/-- C5 (amended): `init(fromDiscovery = true)` falls back to the fixed
built-in three-sensor list (which is non-empty) whenever the discovery
response does not start with the '?' marker; with the marker present,
however, a response whose segments are all empty or of unknown type leaves
the collection empty. -/
theorem C5_init_fallback :
    ∀ response : List Char, response.head? ≠ some '?' →
      SensorManager_init response = createSensorListFixed ∧
      createSensorListFixed ≠ [] := by
  intro response h
  refine ⟨?_, by decide⟩
  unfold SensorManager_init
  simp [h]

/-- C5 witness: the malformed response `"xyz"` falls back to the fixed list. -/
theorem C5_init_fallback_witness :
    SensorManager_init (( "xyz").data) = createSensorListFixed ∧
    createSensorListFixed ≠ [] :=
  C5_init_fallback (( "xyz").data) (by decide)

/-- C8: `buildFromDiscovery` on `"?0:ADC&1:TH"` yields exactly the sensors
with uids "0", "1" and types "ADC", "TH"; on `"?0:ADC&1:Unknown"` it yields
only the ADC with uid "0"; and in general a non-empty segment whose type is
not registered is skipped while the rest of the batch is still processed. -/
theorem C8_buildFromDiscovery :
    (SensorManager_init (( "?0:ADC&1:TH").data)).map
        (fun s => (s.UID, s.TypeName)) =
      [(( "0").data, ( "ADC").data), (( "1").data, ( "TH").data)] ∧
    (SensorManager_init (( "?0:ADC&1:Unknown").data)).map
        (fun s => (s.UID, s.TypeName)) =
      [(( "0").data, ( "ADC").data)] ∧
    (∀ (seg : List Char) (rest : List (List Char)), seg ≠ [] →
      createSensorByType (segmentType seg) (segmentId seg) = none →
      createSensorListGo (seg :: rest) = createSensorListGo rest) := by
  refine ⟨by decide, by decide, ?_⟩
  intro seg rest h1 h2
  have hstep : createSensorListGo (seg :: rest) =
      if seg = [] then createSensorListGo rest
      else
        match createSensorByType (segmentType seg) (segmentId seg) with
        | none => createSensorListGo rest
        | some s => s :: createSensorListGo rest := rfl
  rw [hstep, if_neg h1, h2]

/-- The per-parameter effect of the application loop: overwrite the value
when the key extracted a non-empty string. -/
def applyOne (upd : List Char) (kp : List Char × SensorParam) :
    List Char × SensorParam :=
  (kp.1,
    match getValueFromKeyValueLikeString upd kp.1 '&' with
    | .ok v => if v = [] then kp.2 else { kp.2 with Value := v }
    | .error _ => kp.2)

/-- When the application loop finishes without an escaping exception, the
resulting table overwrites exactly the parameters whose key extracted a
non-empty value. -/
theorem applyLoop_fst_of_no_throw (upd : List Char) :
    ∀ (vals : List (List Char × SensorParam)) (init t : _) (value : List Char),
      applyLoop upd vals init = (t, value, false) →
      t = vals.map (applyOne upd) := by
  intro vals
  induction vals with
  | nil => intro init t value h; simp [applyLoop] at h; simp [h.1]
  | cons kp rest ih =>
    intro init t value h
    obtain ⟨k, p⟩ := kp
    rw [applyLoop] at h
    cases hext : getValueFromKeyValueLikeString upd k '&' with
    | error e => rw [hext] at h; simp at h
    | ok v =>
      rw [hext] at h
      simp only at h
      cases hrec : applyLoop upd rest v with
      | mk rest' rec2 =>
        obtain ⟨value', threw⟩ := rec2
        rw [hrec] at h
        simp only [Prod.mk.injEq] at h
        obtain ⟨ht, _, hthrew⟩ := h
        subst ht
        simp only [List.map_cons, List.cons.injEq]
        refine ⟨?_, ih v rest' value' (by rw [hrec, hthrew])⟩
        simp [applyOne, hext]

/-- When the application loop finishes without an escaping exception and the
table is non-empty, the final content of the local `value` variable is
exactly the extraction result of the last key in iteration order. -/
theorem applyLoop_last_of_no_throw (upd : List Char) :
    ∀ (vals : List (List Char × SensorParam)) (init t : _) (value : List Char)
      (k : List Char) (p : SensorParam),
      applyLoop upd vals init = (t, value, false) →
      vals.getLast? = some (k, p) →
      getValueFromKeyValueLikeString upd k '&' = .ok value := by
  intro vals
  induction vals with
  | nil => intro init t value k p _ hlast; simp at hlast
  | cons kp rest ih =>
    intro init t value k p h hlast
    obtain ⟨k0, p0⟩ := kp
    rw [applyLoop] at h
    cases hext : getValueFromKeyValueLikeString upd k0 '&' with
    | error e => rw [hext] at h; simp at h
    | ok v =>
      rw [hext] at h
      simp only at h
      cases hrec : applyLoop upd rest v with
      | mk rest' rec2 =>
        obtain ⟨value', threw⟩ := rec2
        rw [hrec] at h
        simp only [Prod.mk.injEq] at h
        obtain ⟨_, hval, hthrew⟩ := h
        cases rest with
        | nil =>
          rw [applyLoop] at hrec
          simp only [Prod.mk.injEq] at hrec
          obtain ⟨_, hv, _⟩ := hrec
          have hk : k0 = k := by
            have : some (k0, p0) = some (k, p) := hlast
            simp only [Option.some.injEq, Prod.mk.injEq] at this
            exact this.1
          subst hk
          rw [hext, hv, hval]
        | cons r rs =>
          rw [List.getLast?_cons_cons] at hlast
          rw [← hval]
          exact ih v rest' value' k p (by rw [hrec, hthrew]) hlast

/-- A demonstration parameter. -/
def paramA : SensorParam := { Value := ( "x").data, Unit := [], DType := .STRING }

/-- A second demonstration parameter. -/
def paramB : SensorParam := { Value := ( "y").data, Unit := [], DType := .STRING }

/-- A two-parameter table whose keys, in iteration order, are "a" then "b". -/
def demoVals : List (List Char × SensorParam) :=
  [(( "a").data, paramA), (( "b").data, paramB)]

/-- C1 counterexample: on the table {a, b} and input `"a=1"`, the key "a" is
matched (its value is extracted as "1" and overwritten), yet `update` still
fails with `ValueNotFoundException` — because the loop's final `value` comes
from the last key "b", which did not match.  The claim's "fails if and only
if no key was matched / a partial match succeeds" is therefore false.  The
symmetric `config` operation fails the same way. -/
theorem C1_update_counterexample :
    (updateValues demoVals (( "a=1").data)).2 = some (.cpp excUpdateVNF) ∧
    (configValues demoVals (( "a=1").data)).2 = some (.cpp excConfigCNF) ∧
    getValueFromKeyValueLikeString (( "a=1").data) (( "a").data) '&' =
      .ok (( "1").data) ∧
    (updateValues demoVals (( "a=1").data)).1 =
      [(( "a").data, { paramA with Value := ( "1").data }), (( "b").data, paramB)] := by
  decide

/-- C1 (amended): provided no extraction raises `std::out_of_range`, the
first-revision `update` fails with `ValueNotFoundException` — and `config`
with `ConfigurationNotFoundException` — exactly when the extraction for the
*last* key in the table's iteration order produced the empty string (in
particular always when the table is empty); when the last key's extraction
is non-empty the call succeeds.  In every case the parameters whose keys
extracted non-empty values have been overwritten (even when the call then
throws), and the second-revision `update`/`config` never throw at all. -/
theorem C1_apply_amended :
    ∀ (vals : List (List Char × SensorParam)) (upd : List Char)
      (t : List (List Char × SensorParam)) (value : List Char),
      applyLoop upd vals [] = (t, value, false) →
      ((updateValues vals upd).2 = some (.cpp excUpdateVNF) ↔ value = []) ∧
      ((configValues vals upd).2 = some (.cpp excConfigCNF) ↔ value = []) ∧
      (value ≠ [] → updateValues vals upd = (t, none) ∧
        configValues vals upd = (t, none)) ∧
      updateValuesV2 vals upd = (t, none) ∧
      configValuesV2 vals upd = (t, none) ∧
      t = vals.map (applyOne upd) ∧
      (∀ k p, vals.getLast? = some (k, p) →
        getValueFromKeyValueLikeString upd k '&' = .ok value) := by
  intro vals upd t value h
  refine ⟨?_, ?_, ?_, ?_, ?_, ?_, ?_⟩
  · unfold updateValues
    rw [h]
    by_cases hv : value = [] <;> simp [hv]
  · unfold configValues
    rw [h]
    by_cases hv : value = [] <;> simp [hv]
  · intro hv
    unfold updateValues configValues
    rw [h]
    simp [hv]
  · unfold updateValuesV2
    rw [h]
    simp
  · unfold configValuesV2
    rw [h]
    simp
  · exact applyLoop_fst_of_no_throw upd vals [] t value h
  · intro k p hlast
    exact applyLoop_last_of_no_throw upd vals [] t value k p h hlast

/-- The table `demoVals` after applying the input `"a=1&b=2"`. -/
def demoValsBoth : List (List Char × SensorParam) :=
  [(( "a").data, { paramA with Value := ( "1").data }),
   (( "b").data, { paramB with Value := ( "2").data })]

/-- C1 witness: on the table {a, b} and the input `"a=1&b=2"` the last key's
extraction is non-empty, so `update` and `config` succeed with both
parameters overwritten. -/
theorem C1_apply_amended_witness :
    updateValues demoVals (( "a=1&b=2").data) = (demoValsBoth, none) ∧
    configValues demoVals (( "a=1&b=2").data) = (demoValsBoth, none) :=
  (C1_apply_amended demoVals (( "a=1&b=2").data) demoValsBoth (( "2").data)
    (by decide)).2.2.1 (by decide)

/-- C6: a request that parses into metadata whose uid matches no sensor in
the collection makes `manage` return with the collection exactly as it was
and without letting any exception escape. -/
theorem C6_manage_unknown_uid :
    ∀ (sensors : List BaseSensorV1) (request rstr : List Char)
      (md : SensorMetadataV1),
      ParseMetadataReq request = (rstr, .ok md) →
      getSensor sensors md.UID = none →
      manage sensors request = (sensors, none) := by
  intro sensors request rstr md hp hg
  have hne : request ≠ [] := by
    intro he
    rw [he] at hp
    simp [ParseMetadataReq] at hp
  unfold manage
  rw [if_neg hne, hp]
  simp only
  by_cases hc : CheckMetadataV1 md
  · simp [hc, hg]
  · simp [hc]

/-- A demonstration first-revision sensor with uid "0". -/
def sensorV1demo : BaseSensorV1 :=
  { UID := ( "0").data
    Status := .OK
    TypeName := ( "ADC").data
    Description := []
    Error := none
    Values := [(( "Value").data, paramA)]
    Configs := [(( "Resolution").data, paramB)]
    redrawPenging := true
    isSync := false }

/-- The parsed metadata of the request `"?id=9&type=adc&x=1"`. -/
def mdDemo : SensorMetadataV1 :=
  { UID := ( "9").data
    TypeName := ( "adc").data
    Data := ( "id=9&type=adc&x=1").data }

/-- C6 witness: dispatching a well-formed request whose uid "9" is absent
from a one-sensor collection leaves the collection untouched. -/
theorem C6_manage_unknown_uid_witness :
    manage [sensorV1demo] (( "?id=9&type=adc&x=1").data) = ([sensorV1demo], none) :=
  C6_manage_unknown_uid [sensorV1demo] (( "?id=9&type=adc&x=1").data)
    (( "id=9&type=adc&x=1").data) mdDemo (by decide) (by decide)

/-- C10: both `ParseMetadata` variants mutate the caller's string in place,
erasing the leading '?' marker; the lenient response variant additionally
lower-cases the whole remainder before extracting anything, so the caller's
string after the call is the lower-cased remainder and the returned record's
uid, status and payload are all read from that lower-cased text. -/
theorem C10_parse_in_place :
    ∀ request : List Char, request.head? = some '?' →
      (ParseMetadataResp request).1 = lowerStr (request.drop 1) ∧
      (∀ md, (ParseMetadataResp request).2 = .ok md →
        md.Data = lowerStr (request.drop 1) ∧
        getValueFromKeyValueLikeString (lowerStr (request.drop 1)) keyId '&' =
          .ok md.UID ∧
        getValueFromKeyValueLikeString (lowerStr (request.drop 1)) keyStatus '&' =
          .ok md.Status) ∧
      (ParseMetadataReq request).1 = request.drop 1 := by
  intro request hq
  refine ⟨?_, ?_, ?_⟩
  · unfold ParseMetadataResp
    rw [if_pos hq]
    dsimp only
    split
    · rfl
    · split <;> rfl
  · intro md hmd
    unfold ParseMetadataResp at hmd
    rw [if_pos hq] at hmd
    dsimp only at hmd
    split at hmd
    · simp at hmd
    · split at hmd
      · simp at hmd
      · simp only [Except.ok.injEq] at hmd
        rw [← hmd]
        exact ⟨rfl, by assumption, by assumption⟩
  · unfold ParseMetadataReq
    rw [if_pos hq]
    dsimp only
    split
    · rfl
    · split
      · rfl
      · split
        · rfl
        · split <;> rfl

/-- C10 witness: parsing the response `"?Id=A&Status=1"` leaves the caller's
string lower-cased with the marker gone, while the strict request parser
only strips the marker. -/
theorem C10_parse_in_place_witness :
    (ParseMetadataResp (( "?Id=A&Status=1").data)).1 = ( "id=a&status=1").data ∧
    (ParseMetadataReq (( "?Id=A&Status=1").data)).1 = ( "Id=A&Status=1").data :=
  ⟨((C10_parse_in_place (( "?Id=A&Status=1").data) (by decide)).1).trans (by decide),
   ((C10_parse_in_place (( "?Id=A&Status=1").data) (by decide)).2.2).trans (by decide)⟩

/-- Re-setting an already-false values-sync flag changes nothing. -/
theorem eta_valuesSync (s : BaseSensor) (h : s.isValuesSync = false) :
    { s with isValuesSync := false } = s := by
  cases s with
  | mk u st ty d e v c r ic iv =>
    dsimp only at h
    subst h
    rfl

/-- The second-revision `update` touches only the `Values` table. -/
theorem update_keeps_flags (s : BaseSensor) (upd : List Char) :
    ((BaseSensor.update s upd).1).isValuesSync = s.isValuesSync ∧
    ((BaseSensor.update s upd).1).redrawPenging = s.redrawPenging ∧
    ((BaseSensor.update s upd).1).Status = s.Status := by
  unfold BaseSensor.update
  cases h : updateValuesV2 s.Values upd with
  | mk t err => simp

/-- The status decoder table of `BaseSensor::setStatus`. -/
theorem setStatus_decode (x : BaseSensor) (st : List Char) :
    (BaseSensor.setStatus x st).Status =
      (if st = ( "1").data then .OK
       else if st = ( "-1").data then .ERROR
       else if st = ( "0").data then .OFFLINE
       else x.Status) := by
  unfold BaseSensor.setStatus
  by_cases h0 : st = []
  · subst h0
    rw [if_pos rfl, if_neg (by decide), if_neg (by decide), if_neg (by decide)]
  · rw [if_neg h0]
    split_ifs <;> rfl

/-- C2: in the value-pull phase of a sensor whose values-sync flag is false,
(i) a malformed response — one missing the '?' marker — leaves the sensor
(its `Values` table included) exactly as it was, with `valuesSynced` still
false, and throws nothing; (ii) the same holds when the response parses but
`IsValid` rejects it (uid mismatch or empty uid/payload); (iii) whenever the
pull ends with `valuesSynced = true`, the response parsed to a record whose
uid equals the sensor's and whose payload is non-empty, and `redrawPending`
was set; and (iv) the status decoder maps "1" to Ok, "-1" to Error, "0" to
Offline and ignores every other string. -/
theorem C2_syncValues_pull :
    ∀ (env : Env) (ch : Chan) (s : BaseSensor) (response : List Char),
      s.isValuesSync = false →
      env.send ch.sends = none →
      env.recv ch.recvs = response →
      ((response.head? ≠ some '?' →
          syncValues env s ch = (s, ⟨ch.sends + 1, ch.recvs + 1⟩, none)) ∧
       (∀ (str' : List Char) (md : SensorMetadata),
          ParseMetadataResp response = (str', .ok md) →
          IsValid md s.UID = false →
          syncValues env s ch = (s, ⟨ch.sends + 1, ch.recvs + 1⟩, none)) ∧
       ((syncValues env s ch).1.isValuesSync = true →
          ∃ (str' : List Char) (md : SensorMetadata),
            ParseMetadataResp response = (str', .ok md) ∧
            md.UID = s.UID ∧ md.Data ≠ [] ∧
            (syncValues env s ch).1.redrawPenging = true) ∧
       (∀ (x : BaseSensor) (st : List Char),
          (BaseSensor.setStatus x st).Status =
            (if st = ( "1").data then .OK
             else if st = ( "-1").data then .ERROR
             else if st = ( "0").data then .OFFLINE
             else x.Status))) := by
  intro env ch s response hsync hsend hrecv
  have heta : { s with isValuesSync := false } = s := eta_valuesSync s hsync
  refine ⟨?_, ?_, ?_, fun x st => setStatus_decode x st⟩
  · intro hq
    unfold syncValues
    rw [hsend]
    dsimp only
    rw [hrecv]
    unfold ParseMetadataResp
    rw [if_neg hq]
    dsimp only
    rw [show IsValid { UID := [], Status := [], Data := [] } s.UID = false from rfl]
    rw [heta]
    rfl
  · intro str' md hpm hval
    unfold syncValues
    rw [hsend]
    dsimp only
    rw [hrecv, hpm]
    dsimp only
    rw [hval]
    rw [heta]
    rfl
  · intro hT
    unfold syncValues at hT ⊢
    rw [hsend] at hT ⊢
    dsimp only at hT ⊢
    rw [hrecv] at hT ⊢
    cases hpm : (ParseMetadataResp response).2 with
    | error e =>
      try simp only [hpm] at hT
      try dsimp only at hT
      exact absurd hT (by decide)
    | ok md =>
      try simp only [hpm] at hT
      dsimp only at hT ⊢
      by_cases hv : IsValid md s.UID
      · rw [if_pos hv] at hT ⊢
        cases hu : BaseSensor.update { s with isValuesSync := false } md.Data with
        | mk s1 uerr =>
          rw [hu] at hT
          cases uerr with
          | some e =>
            try dsimp only at hT
            have hflag : s1.isValuesSync = false := by
              have h1 := (update_keeps_flags { s with isValuesSync := false } md.Data).1
              rw [hu] at h1
              exact h1
            rw [hflag] at hT
            exact absurd hT (by decide)
          | none =>
            have hvp : md.UID = s.UID ∧ md.Data ≠ [] := by
              have hv' := hv
              unfold IsValid CheckMetadata at hv'
              simp only [Bool.and_eq_true, decide_eq_true_eq,
                Bool.not_eq_true'] at hv'
              refine ⟨hv'.2, ?_⟩
              intro hd
              rw [hd] at hv'
              exact absurd hv'.1.2 (by decide)
            refine ⟨(ParseMetadataResp response).1, md, ?_, hvp.1, hvp.2, rfl⟩
            rw [← hpm]
      · rw [if_neg hv] at hT
        dsimp only at hT
        exact absurd hT (by decide)

/-- The transport of the C2 witness: the send succeeds, the receive returns
the malformed text `"id=6"` (no marker). -/
def envMalformed : Env := { send := fun _ => none, recv := fun _ => ( "id=6").data }

/-- C2 witness: pulling values over a malformed response leaves the ADC
exactly as constructed (values unchanged, `valuesSynced` false) with no
escaping exception. -/
theorem C2_syncValues_pull_witness :
    syncValues envMalformed (ADCinit (( "6").data)) ⟨0, 0⟩ =
      (ADCinit (( "6").data), ⟨1, 1⟩, none) :=
  (C2_syncValues_pull envMalformed ⟨0, 0⟩ (ADCinit (( "6").data))
    (( "id=6").data) rfl rfl rfl).1 (by decide)

/-- A transport whose sends succeed and whose receives return `"?id"` — a
marker-bearing response on which the lenient parser's `substr` raises
`std::out_of_range`. -/
def envBadParse : Env := { send := fun _ => none, recv := fun _ => ( "?id").data }

/-- C7 counterexample: with the response `"?id"`, the first sensor's
`synchronize` raises `std::out_of_range`, which `syncSensor`'s
`catch (const Exception&)` does not catch: `resync` aborts, no `setError` is
recorded on the first sensor, and the second sensor's `synchronize` is never
invoked (its sync flags are still false and it is returned untouched) — the
claim that every failure is caught on its own sensor and subsequent sensors
are still synchronized is false. -/
theorem C7_resync_counterexample :
    resyncGo envBadParse ⟨0, 0⟩ [ADCinit (( "0").data), ADCinit (( "1").data)] =
      ([{ ADCinit (( "0").data) with isConfigsSync := true },
        ADCinit (( "1").data)],
       ⟨2, 1⟩, some .stdOutOfRange) ∧
    ({ ADCinit (( "0").data) with isConfigsSync := true }).Error = none ∧
    (ADCinit (( "1").data)).isConfigsSync = false ∧
    (ADCinit (( "1").data)).isValuesSync = false := by decide

/-- C7 (amended): `resync` walks the collection in order through
`syncSensor`; when a sensor's `synchronize` fails with an `Exception` of the
project hierarchy (for example a transport `send` failure), that exception is
caught, recorded on that sensor alone via `setError`, and iteration continues
over the remaining sensors exactly as it would have from that transport
state; a timeout (empty receive) is no failure at all — the lenient parser
rejects the empty response and only leaves `valuesSynced` false.  However, a
`std::out_of_range` escaping the metadata parser matches no handler and
aborts the remaining sensors (see the counterexample). -/
theorem C7_resync_amended :
    ∀ (env : Env) (ch : Chan) (s : BaseSensor) (rest : List BaseSensor)
      (s' : BaseSensor) (ch' : Chan) (e : Exceptio),
      synchronize env s ch = (s', ch', some (.cpp e)) →
      resyncGo env ch (s :: rest) =
        ((BaseSensor.setError s' (some e)) :: (resyncGo env ch' rest).1,
         (resyncGo env ch' rest).2.1, (resyncGo env ch' rest).2.2) := by
  intro env ch s rest s' ch' e h
  have hs : syncSensor env s ch = (BaseSensor.setError s' (some e), ch', none) := by
    unfold syncSensor
    rw [h]
  have hstep : resyncGo env ch (s :: rest) =
      (match syncSensor env s ch with
       | (s1, ch1, none) =>
         match resyncGo env ch1 rest with
         | (rest', chEnd, err) => (s1 :: rest', chEnd, err)
       | (s1, ch1, some err) => (s1 :: rest, ch1, some err)) := rfl
  rw [hstep, hs]

/-- The transport of the C7 witness: every `send` throws. -/
def envSendFail : Env :=
  { send := fun _ => some (.base .ERROR_CODE ( "send failed").data ( "sendMessage").data)
    recv := fun _ => [] }

/-- C7 witness: a send failure on a one-sensor collection is caught and
recorded via `setError` and the (empty) remainder of the collection is still
processed. -/
theorem C7_resync_amended_witness :
    resyncGo envSendFail ⟨0, 0⟩ [ADCinit (( "0").data)] =
      ([BaseSensor.setError (ADCinit (( "0").data))
          (some (.base .ERROR_CODE ( "send failed").data ( "sendMessage").data))],
       ⟨1, 0⟩, none) :=
  (C7_resync_amended envSendFail ⟨0, 0⟩ (ADCinit (( "0").data)) []
    (ADCinit (( "0").data)) ⟨1, 0⟩
    (.base .ERROR_CODE ( "send failed").data ( "sendMessage").data)
    (by decide)).trans (by decide)

/-- Whenever `k` is a prefix of some suffix of `s` (an occurrence of `k`
inside `s`), `find` reports an occurrence. -/
theorem findSub_isSome_of_occ :
    ∀ (s k : List Char) (i : Nat), k <+: s.drop i → (findSub s k).isSome := by
  intro s
  induction s with
  | nil =>
    intro k i h
    have hk : k = [] := List.prefix_nil.mp (by simpa using h)
    subst hk
    rfl
  | cons a rest ih =>
    intro k i h
    rw [findSub.eq_def]
    by_cases hp : k.isPrefixOf (a :: rest)
    · rw [if_pos hp]
      rfl
    · rw [if_neg hp]
      dsimp only
      cases i with
      | zero =>
        rw [List.drop_zero] at h
        exact absurd ( List.isPrefixOf_iff_prefix.mpr h) hp
      | succ j =>
        have hs := ih k j h
        cases hfs : findSub rest k with
        | none => rw [hfs] at hs; exact absurd hs (by decide)
        | some m => rfl

/-- `find` on `A ++ X` reports exactly `A.length` when `k` is a prefix of
`X` and has no occurrence starting inside `A`. -/
theorem findSub_append_found :
    ∀ (A X k : List Char), k <+: X →
      (∀ i, i < A.length → ¬ k <+: ((A ++ X).drop i)) →
      findSub (A ++ X) k = some A.length := by
  intro A
  induction A with
  | nil =>
    intro X k h0 _
    rw [List.nil_append, findSub.eq_def,
      if_pos ( List.isPrefixOf_iff_prefix.mpr h0)]
    rfl
  | cons a A' ih =>
    intro X k h0 h1
    have hnot : ¬ k.isPrefixOf (a :: (A' ++ X)) := by
      intro hp
      exact h1 0 (by simp) ( List.isPrefixOf_iff_prefix.mp hp)
    rw [List.cons_append, findSub.eq_def, if_neg hnot]
    have h1' : ∀ i, i < A'.length → ¬ k <+: ((A' ++ X).drop i) := by
      intro i hi
      exact h1 (i + 1) (by simp; omega)
    dsimp only
    rw [ih X k h0 h1']
    rfl

/-- A prefix of `D ++ X` no longer than `D` is a prefix of `D`. -/
theorem prefix_of_append_short :
    ∀ (k D X : List Char), k <+: D ++ X → k.length ≤ D.length → k <+: D := by
  intro k D X h hlen
  have hk : k = (D ++ X).take k.length := List.prefix_iff_eq_take.mp h
  rw [List.take_append_eq_append_take, Nat.sub_eq_zero_of_le hlen,
    List.take_zero, List.append_nil] at hk
  rw [hk]
  exact List.take_prefix k.length D

/-- A prefix of `D ++ c :: Y` longer than `D` contains the character `c`. -/
theorem mem_of_append_cross :
    ∀ (k D : List Char) (c : Char) (Y : List Char),
      k <+: D ++ c :: Y → D.length < k.length → c ∈ k := by
  intro k D c Y h hlen
  have hk : k = (D ++ c :: Y).take k.length := List.prefix_iff_eq_take.mp h
  rw [List.take_append_eq_append_take] at hk
  have hm : k.length - D.length = (k.length - D.length - 1) + 1 := by omega
  rw [hm, List.take_succ_cons] at hk
  rw [hk]
  simp

/-- When `k` is non-empty, avoids the character `c` and has no occurrence in
`A0`, it has no occurrence starting inside `A0 ++ [c]` either. -/
theorem no_occ_before_slot :
    ∀ (A0 : List Char) (c : Char) (X k : List Char),
      k ≠ [] → c ∉ k → findSub A0 k = none →
      ∀ i, i < (A0 ++ [c]).length → ¬ k <+: (((A0 ++ [c]) ++ X).drop i) := by
  intro A0 c X k hk hc hno i hi h
  have hbig : (A0 ++ [c]) ++ X = A0 ++ c :: X := by simp
  rw [hbig] at h
  have hIle : i ≤ A0.length := by
    simp only [List.length_append, List.length_cons, List.length_nil] at hi
    omega
  rw [List.drop_append_eq_append_drop, Nat.sub_eq_zero_of_le hIle,
    List.drop_zero] at h
  by_cases hshort : k.length ≤ A0.length - i
  · have hocc : k <+: A0.drop i := by
      refine prefix_of_append_short k (A0.drop i) (c :: X) h ?_
      rw [List.length_drop]
      exact hshort
    have := findSub_isSome_of_occ A0 k i hocc
    rw [hno] at this
    exact absurd this (by decide)
  · have : c ∈ k := by
      refine mem_of_append_cross k (A0.drop i) c X h ?_
      rw [List.length_drop]
      omega
    exact hc this

/-- With `c` absent from `v`, finding `c` in `v ++ w` is finding it in `w`,
shifted. -/
theorem findCharIdx_append_of_not_mem :
    ∀ (c : Char) (v w : List Char), c ∉ v →
      findCharIdx c (v ++ w) = (findCharIdx c w).map (v.length + ·) := by
  intro c v
  induction v with
  | nil =>
    intro w _
    rw [List.nil_append]
    cases h : findCharIdx c w <;> simp
  | cons a v' ih =>
    intro w hm
    have ha : ¬ a = c := by
      intro he
      exact hm (by rw [he]; exact List.mem_cons_self c v')
    rw [List.cons_append, findCharIdx, if_neg ha,
      ih w (fun hx => hm (List.mem_cons_of_mem a hx))]
    cases h : findCharIdx c w <;> simp
    omega

/-- `c` is not found in a list it does not belong to. -/
theorem findCharIdx_eq_none_of_not_mem :
    ∀ (c : Char) (v : List Char), c ∉ v → findCharIdx c v = none := by
  intro c v
  induction v with
  | nil => intro _; rfl
  | cons a v' ih =>
    intro hm
    have ha : ¬ a = c := by
      intro he
      exact hm (by rw [he]; exact List.mem_cons_self c v')
    rw [findCharIdx, if_neg ha, ih (fun hx => hm (List.mem_cons_of_mem a hx))]
    rfl

/-- The tail the encoding loop appends after its starting string. -/
def encTail : List (List Char × SensorParam) → List Char
  | [] => []
  | (k, p) :: rest => ('&' :: (k ++ '=' :: p.Value)) ++ encTail rest

/-- The encoding loop over a concatenation runs the two halves in turn. -/
theorem encodeParams_append :
    ∀ (xs ys : List (List Char × SensorParam)) (pre : List Char),
      encodeParams pre (xs ++ ys) = encodeParams (encodeParams pre xs) ys := by
  intro xs
  induction xs with
  | nil => intro ys pre; rfl
  | cons kp rest ih =>
    intro ys pre
    obtain ⟨k, p⟩ := kp
    rw [List.cons_append]
    exact ih ys (pre ++ '&' :: (k ++ '=' :: p.Value))

/-- The encoding loop only ever appends to its starting string. -/
theorem encodeParams_eq_append :
    ∀ (ps : List (List Char × SensorParam)) (pre : List Char),
      encodeParams pre ps = pre ++ encTail ps := by
  intro ps
  induction ps with
  | nil => intro pre; simp [encodeParams, encTail]
  | cons kp rest ih =>
    intro pre
    obtain ⟨k, p⟩ := kp
    show encodeParams (pre ++ '&' :: (k ++ '=' :: p.Value)) rest = _
    rw [ih]
    simp [encTail]

/-- Extraction at a known occurrence: when the first occurrence of `k` is at
`n`, the text after `k` plus one separator position splits as `v ++ w` with
no '&' inside `v` and `w` empty or starting with '&', the extracted value is
exactly `v`. -/
theorem extract_at :
    ∀ (full v w k : List Char) (n : Nat),
      findSub full k = some n →
      n + k.length + 1 ≤ full.length →
      full.drop (n + k.length + 1) = v ++ w →
      '&' ∉ v →
      (w = [] ∨ ∃ w', w = '&' :: w') →
      getValueFromKeyValueLikeString full k '&' = .ok v := by
  intro full v w k n hfind hle hdrop hv hw
  unfold getValueFromKeyValueLikeString
  rw [hfind]
  dsimp only
  rw [if_pos hle]
  unfold findCharFrom
  rw [hdrop]
  cases hw with
  | inl hnil =>
    subst hnil
    rw [List.append_nil]
    rw [findCharIdx_eq_none_of_not_mem '&' v hv]
    rfl
  | inr hex =>
    obtain ⟨w', hw'⟩ := hex
    subst hw'
    rw [findCharIdx_append_of_not_mem '&' v ('&' :: w') hv]
    have h0 : findCharIdx '&' ('&' :: w') = some 0 := by
      show (if '&' = '&' then some 0
        else (findCharIdx '&' w').map (· + 1)) = some 0
      rw [if_pos rfl]
    rw [h0, Option.map_some', Option.map_some']
    show Except.ok (List.take
        (n + k.length + 1 + (v.length + 0) - (n + k.length + 1))
        (v ++ '&' :: w')) = Except.ok v
    have harith : n + k.length + 1 + (v.length + 0) - (n + k.length + 1) =
        v.length := by omega
    rw [harith, List.take_left]

/-- C4 counterexample: the key "ab" and the key "b", with values "1" and
"2", contain no '&' and no '='; yet on the encoded string `"&ab=1&b=2"` the
extraction of "b" finds its first occurrence *inside* "ab" and returns "1",
not the value "2" the map holds for "b" — the round-trip claim fails for
maps whose keys and values merely avoid '&' and '='. -/
theorem C4_roundtrip_counterexample :
    ('&' ∉ ( "ab").data ∧ '=' ∉ ( "ab").data ∧
     '&' ∉ ( "b").data ∧ '=' ∉ ( "b").data ∧
     '&' ∉ ( "1").data ∧ '=' ∉ ( "1").data ∧
     '&' ∉ ( "2").data ∧ '=' ∉ ( "2").data) ∧
    encodeParams []
        [(( "ab").data, { Value := ( "1").data, Unit := [], DType := .STRING }),
         (( "b").data, { Value := ( "2").data, Unit := [], DType := .STRING })] =
      ( "&ab=1&b=2").data ∧
    getValueFromKeyValueLikeString ( "&ab=1&b=2").data (( "b").data) '&' =
      .ok (( "1").data) ∧
    ( "1").data ≠ ( "2").data := by decide

/-- C4 (amended): encode-then-extract round-trips to the pair's own value
for every pair of the map, for every prefix, provided that the key is
non-empty, that the key and its value contain no '&', and that the key does
not occur as a substring of the portion of the encoded string that precedes
the pair's own segment (which rules out the counterexample's key-inside-
another-key overlap; keys and values merely avoiding '&' and '=' is not
enough). -/
theorem C4_encode_extract :
    ∀ (start : List Char) (ps1 ps2 : List (List Char × SensorParam))
      (k : List Char) (p : SensorParam),
      k ≠ [] → '&' ∉ k → '&' ∉ p.Value →
      findSub (encodeParams start ps1) k = none →
      getValueFromKeyValueLikeString
        (encodeParams start (ps1 ++ (k, p) :: ps2)) k '&' = .ok p.Value := by
  intro start ps1 ps2 k p hk hak hav hno
  have hfull : encodeParams start (ps1 ++ (k, p) :: ps2) =
      ((encodeParams start ps1) ++ ['&']) ++
        (k ++ '=' :: (p.Value ++ encTail ps2)) := by
    rw [encodeParams_append]
    show encodeParams
        ((encodeParams start ps1) ++ '&' :: (k ++ '=' :: p.Value)) ps2 = _
    rw [encodeParams_eq_append]
    simp
  rw [hfull]
  have hfind : findSub
      (((encodeParams start ps1) ++ ['&']) ++
        (k ++ '=' :: (p.Value ++ encTail ps2))) k =
      some ((encodeParams start ps1) ++ ['&']).length :=
    findSub_append_found ((encodeParams start ps1) ++ ['&'])
      (k ++ '=' :: (p.Value ++ encTail ps2)) k
      ⟨'=' :: (p.Value ++ encTail ps2), rfl⟩
      (no_occ_before_slot (encodeParams start ps1) '&'
        (k ++ '=' :: (p.Value ++ encTail ps2)) k hk hak hno)
  have hsplit : ((encodeParams start ps1) ++ ['&']) ++
      (k ++ '=' :: (p.Value ++ encTail ps2)) =
      ((encodeParams start ps1) ++ '&' :: (k ++ ['='])) ++
        (p.Value ++ encTail ps2) := by simp
  have hn : ((encodeParams start ps1) ++ ['&']).length + k.length + 1 =
      ((encodeParams start ps1) ++ '&' :: (k ++ ['='])).length := by
    simp
    omega
  have hdrop : (((encodeParams start ps1) ++ ['&']) ++
      (k ++ '=' :: (p.Value ++ encTail ps2))).drop
        (((encodeParams start ps1) ++ ['&']).length + k.length + 1) =
      p.Value ++ encTail ps2 := by
    rw [hsplit, hn, List.drop_left]
  have hle : ((encodeParams start ps1) ++ ['&']).length + k.length + 1 ≤
      (((encodeParams start ps1) ++ ['&']) ++
        (k ++ '=' :: (p.Value ++ encTail ps2))).length := by
    simp
    omega
  refine extract_at _ p.Value (encTail ps2) k _ hfind hle hdrop hav ?_
  cases ps2 with
  | nil => exact Or.inl rfl
  | cons q qs =>
    obtain ⟨kq, pq⟩ := q
    exact Or.inr ⟨(kq ++ '=' :: pq.Value) ++ encTail qs, rfl⟩

/-- The encoded config-push message of the C4 witness's sensor: prefix
`"?CONFIG&id=7"` followed by the pair ("resolution", "12"). -/
def demoResolution : SensorParam :=
  { Value := ( "12").data, Unit := ( "bits").data, DType := .INT }

/-- C4 witness: extracting "resolution" from the encoded message
`"?CONFIG&id=7&resolution=12"` returns "12". -/
theorem C4_encode_extract_witness :
    getValueFromKeyValueLikeString
      (encodeParams (( "?CONFIG&id=7").data) [(( "resolution").data, demoResolution)])
      (( "resolution").data) '&' = .ok (( "12").data) :=
  (C4_encode_extract (( "?CONFIG&id=7").data) [] []
    (( "resolution").data) demoResolution
    (by decide) (by decide) (by decide) (by decide))
